import Mathlib

/-!
Verification development for the ShellSensei core (executor.py, tui_app.py,
ai_core.py).  The Python sources are shallowly embedded: regular-expression
pattern matching (Python `re.search`) is given an executable semantics over a
small regex AST covering exactly the constructs the registries use; the TUI
input handler is embedded as a pure step function over an explicit session
state, with the external oracles (Gemini responses, process execution,
interactivity test) passed in as function parameters; the signed response
cache is embedded over an explicit association-list store with the digest
and MAC primitives (hashlib/hmac, which are outside the repository) passed
in as function parameters.
-/

/-! ## Regex AST and matching semantics

Covers the constructs used by the pattern registries in `executor.py` and
`tui_app.py`: literal characters, `.` (any char except newline), `\s`
(whitespace class, ASCII subset), `\b` (word boundary), `$` (end of string,
or just before a trailing newline, as in Python without MULTILINE),
concatenation, alternation `(a|b)`, `*` and `+`.
-/

inductive RE where
  | eps : RE
  | ch (c : Char) : RE
  | anyc : RE
  | space : RE
  | wordB : RE
  | eos : RE
  | seq (a b : RE) : RE
  | alt (a b : RE) : RE
  | star (a : RE) : RE
deriving Repr

/-- Python `\s` (ASCII part): space, tab, newline, carriage return,
vertical tab, form feed. -/
def isSpaceChar (c : Char) : Bool :=
  c == ' ' || c == '\t' || c == '\n' || c == '\r' || c == '\x0b' || c == '\x0c'

/-- Python `\w` (ASCII part): letters, digits, underscore. -/
def isWordChar (c : Char) : Bool :=
  ('a' ≤ c && c ≤ 'z') || ('A' ≤ c && c ≤ 'Z') || ('0' ≤ c && c ≤ '9') || c == '_'

/-- `\b`: word boundary between the previous character (none at the start of
the string) and the next character (none at the end). -/
def atBoundary (prev : Option Char) (s : List Char) : Bool :=
  let pw := match prev with | none => false | some c => isWordChar c
  let nw := match s with | [] => false | c :: _ => isWordChar c
  pw != nw

/-- Number of AST nodes, used to compute a sufficient fuel bound. -/
def sizeRE : RE → Nat
  | .seq a b => sizeRE a + sizeRE b + 1
  | .alt a b => sizeRE a + sizeRE b + 1
  | .star a => sizeRE a + 1
  | _ => 1

/-- Backtracking matcher in continuation-passing style.  `prev` is the
character just before the current position (for `\b`), `k` the continuation
receiving the position after the match.  `fuel` decreases on every
recursive call (structural recursion, so the definition evaluates by
reduction); a `star` unfolding is required to consume at least one
character (iterations of a starred expression that consume nothing cannot
change whether a match exists), so calls never nest more than
`sizeRE r` levels deep per star iteration and `(sizeRE r + 1) *
(s.length + 2)` fuel is always sufficient. -/
def matchR (fuel : Nat) (r : RE) (prev : Option Char) (s : List Char)
    (k : Option Char → List Char → Bool) : Bool :=
  match fuel with
  | 0 => false
  | fuel + 1 =>
    match r with
    | .eps => k prev s
    | .ch c =>
      match s with
      | [] => false
      | a :: rest => a == c && k (some a) rest
    | .anyc =>
      match s with
      | [] => false
      | a :: rest => !(a == '\n') && k (some a) rest
    | .space =>
      match s with
      | [] => false
      | a :: rest => isSpaceChar a && k (some a) rest
    | .wordB => atBoundary prev s && k prev s
    | .eos => (s.isEmpty || s == ['\n']) && k prev s
    | .seq a b => matchR fuel a prev s (fun p t => matchR fuel b p t k)
    | .alt a b => matchR fuel a prev s k || matchR fuel b prev s k
    | .star a =>
      k prev s ||
        matchR fuel a prev s (fun p t =>
          if t.length < s.length then matchR fuel (.star a) p t k else false)

/-- Try to match `r` at every start position, scanning left to right:
the semantics of Python `re.search` restricted to a boolean result. -/
def searchAux (r : RE) (prev : Option Char) (s : List Char) : Bool :=
  matchR ((sizeRE r + 1) * (s.length + 2)) r prev s (fun _ _ => true) ||
    match s with
    | [] => false
    | c :: rest => searchAux r (some c) rest

/-- `research r s = true` iff Python `re.search(pattern, s)` finds a match,
where `r` is the AST translation of `pattern`. -/
def research (r : RE) (s : String) : Bool :=
  searchAux r none s.data

/-- A sequence of literal characters. -/
def rstr (s : String) : RE :=
  s.data.foldr (fun c acc => RE.seq (RE.ch c) acc) RE.eps

/-- `r+` as `r r*`. -/
def rplus (r : RE) : RE := RE.seq r (RE.star r)

/-- Concatenation of a list of regexes. -/
def rseq (rs : List RE) : RE := rs.foldr RE.seq RE.eps

/-! ## executor.py — pattern registries and `check_safety` -/

/-- `BLOCKED_PATTERNS` from executor.py, in source order.  Each entry is the
AST translation of the Python regex given in the comment. -/
def BLOCKED_PATTERNS : List RE := [
  -- rm\s+-rf\s*/\s*$
  rseq [rstr "rm", rplus .space, rstr "-rf", .star .space, .ch '/', .star .space, .eos],
  -- rm\s+-rf\s*/\b
  rseq [rstr "rm", rplus .space, rstr "-rf", .star .space, .ch '/', .wordB],
  -- dd\s+.*of=/dev/sd
  rseq [rstr "dd", rplus .space, .star .anyc, rstr "of=/dev/sd"],
  -- dd\s+.*of=/dev/hd
  rseq [rstr "dd", rplus .space, .star .anyc, rstr "of=/dev/hd"],
  -- dd\s+.*of=/dev/nvme
  rseq [rstr "dd", rplus .space, .star .anyc, rstr "of=/dev/nvme"],
  -- mkfs\.
  rstr "mkfs.",
  -- :\(\)\{\s*:\|:\&\s*\};:   (fork bomb)
  rseq [rstr ":()\x7b", .star .space, rstr ":|:&", .star .space, rstr "\x7d;:"],
  -- :\(\)\{\s*:\|:\s*&\s*\};:  (fork bomb variant)
  rseq [rstr ":()\x7b", .star .space, rstr ":|:", .star .space, .ch '&', .star .space,
        rstr "\x7d;:"],
  -- --no-preserve-root
  rstr "--no-preserve-root",
  -- chmod\s+777\s+/\s*$
  rseq [rstr "chmod", rplus .space, rstr "777", rplus .space, .ch '/', .star .space, .eos],
  -- chown\s+-R.*\s+/\s*$
  rseq [rstr "chown", rplus .space, rstr "-R", .star .anyc, rplus .space, .ch '/',
        .star .space, .eos],
  -- rm\s+-rf\s+/home\s*$
  rseq [rstr "rm", rplus .space, rstr "-rf", rplus .space, rstr "/home", .star .space, .eos],
  -- rm\s+-rf\s+/etc
  rseq [rstr "rm", rplus .space, rstr "-rf", rplus .space, rstr "/etc"],
  -- rm\s+-rf\s+/usr
  rseq [rstr "rm", rplus .space, rstr "-rf", rplus .space, rstr "/usr"],
  -- rm\s+-rf\s+/var
  rseq [rstr "rm", rplus .space, rstr "-rf", rplus .space, rstr "/var"],
  -- rm\s+-rf\s+/bin
  rseq [rstr "rm", rplus .space, rstr "-rf", rplus .space, rstr "/bin"],
  -- rm\s+-rf\s+/sbin
  rseq [rstr "rm", rplus .space, rstr "-rf", rplus .space, rstr "/sbin"],
  -- rm\s+-rf\s+/lib
  rseq [rstr "rm", rplus .space, rstr "-rf", rplus .space, rstr "/lib"],
  -- rm\s+-rf\s+/boot
  rseq [rstr "rm", rplus .space, rstr "-rf", rplus .space, rstr "/boot"]]

/-- `CAUTION_PATTERNS` from executor.py, in source order, with the exact
warning messages. -/
def CAUTION_PATTERNS : List (RE × String) := [
  -- \bsudo\b
  (rseq [.wordB, rstr "sudo", .wordB],
   "This command requires administrator (sudo) privileges."),
  -- \brm\s+-rf\b
  (rseq [.wordB, rstr "rm", rplus .space, rstr "-rf", .wordB],
   "This will permanently delete files/directories."),
  -- \brm\s+-r\b
  (rseq [.wordB, rstr "rm", rplus .space, rstr "-r", .wordB],
   "This will recursively delete a directory."),
  -- \bcurl\b.*\|\s*(bash|sh)\b
  (rseq [.wordB, rstr "curl", .wordB, .star .anyc, .ch '|', .star .space,
         .alt (rstr "bash") (rstr "sh"), .wordB],
   "This downloads a script from the internet and runs it directly."),
  -- \bwget\b.*\|\s*(bash|sh)\b
  (rseq [.wordB, rstr "wget", .wordB, .star .anyc, .ch '|', .star .space,
         .alt (rstr "bash") (rstr "sh"), .wordB],
   "This downloads a script from the internet and runs it directly."),
  -- \bchmod\s+-R\b
  (rseq [.wordB, rstr "chmod", rplus .space, rstr "-R", .wordB],
   "This changes permissions recursively."),
  -- \bdd\b
  (rseq [.wordB, rstr "dd", .wordB],
   "dd can be dangerous if used incorrectly.")]

/-- The single fixed message returned for a blocked command. -/
def blockedMessage : String :=
  "⛔ This command is BLOCKED — it can permanently destroy your system."

/-- The list of caution warnings accumulated by the loop in `check_safety`
(the local `warnings` variable), in registry order, duplicates kept. -/
def cautionWarnings (command : String) : List String :=
  CAUTION_PATTERNS.filterMap fun pm =>
    if research pm.1 command then some pm.2 else none

/-- `check_safety` from executor.py: blocked patterns first (immediate
dangerous verdict), then the caution loop, joining accumulated warnings with
a separator for display; safe with an empty message otherwise. -/
def check_safety (command : String) : String × String :=
  if BLOCKED_PATTERNS.any (fun p => research p command) then
    ("dangerous", blockedMessage)
  else
    if (cautionWarnings command).isEmpty then ("safe", "")
    else ("caution", String.intercalate " | " (cautionWarnings command))

/-! ## executor.py — `execute`

`subprocess.run` is an OS interaction; its outcome is embedded as a sum type
covering the three arms of the try/except in `execute`: graceful completion
(with a return code and captured streams), `subprocess.TimeoutExpired`, and
any other raised exception (caught by the final `except Exception`).  The
elapsed wall-clock time measured for the non-timeout arms is a parameter. -/

inductive SubprocOutcome where
  | completed (returncode : Int) (stdout stderr : String) : SubprocOutcome
  | timedOut : SubprocOutcome
  | raised (msg : String) : SubprocOutcome
deriving Repr

/-- The result dict of `execute`. -/
structure ExecResult where
  success : Bool
  output : String
  error : String
  exit_code : Int
  duration_ms : Nat
deriving DecidableEq, Repr

/-- `execute` from executor.py: one result per outcome arm.  The timeout arm
reports `duration_ms = timeout * 1000` exactly and a synthetic message; both
failure arms report exit code −1. -/
def execute (command : String) (timeout : Nat) (outcome : SubprocOutcome)
    (elapsed_ms : Nat) : ExecResult :=
  match outcome with
  | .completed rc out err =>
    { success := rc == 0, output := out, error := err, exit_code := rc,
      duration_ms := elapsed_ms }
  | .timedOut =>
    { success := false, output := "",
      error := s!"Command timed out after {timeout} seconds.", exit_code := -1,
      duration_ms := timeout * 1000 }
  | .raised msg =>
    { success := false, output := "", error := msg, exit_code := -1,
      duration_ms := elapsed_ms }

/-! ## ai_core.py — integrity-verified cache

`hashlib.md5`, `hmac.new(...).digest()` and `pickle` are standard-library
primitives outside this repository; they enter the embedding as function
parameters (`md5hex`, `mac`, `dumps`/`loads`).  Bytes are `List Nat`; the
cache directory is an association list from file name to file contents and
mtime. -/

structure CacheFile where
  bytes : List Nat
  mtime : Nat
deriving DecidableEq, Repr

/-- The on-disk cache directory. -/
abbrev CacheStore := List (String × CacheFile)

def storeGet (store : CacheStore) (k : String) : Option CacheFile :=
  store.lookup k

def storeDel (store : CacheStore) (k : String) : CacheStore :=
  store.filter fun e => e.1 != k

def storeSet (store : CacheStore) (k : String) (f : CacheFile) : CacheStore :=
  (k, f) :: storeDel store k

/-- `CACHE_TTL = 86400` (24 hours). -/
def CACHE_TTL : Nat := 86400

/-- The string `f"{query}|{profile}"` digested by `_get_cache_key`. -/
def cache_key_content (query profile : String) : String :=
  query ++ "|" ++ profile

/-- `_get_cache_key` from ai_core.py: the hex digest of the joined content;
`md5hex` stands for `hashlib.md5(∙.encode()).hexdigest()`. -/
def get_cache_key (md5hex : String → String) (query profile : String) : String :=
  md5hex (cache_key_content query profile)

/-- The cache file name `f"{_get_cache_key(query, profile)}.pkl"`. -/
def cacheFileName (md5hex : String → String) (query profile : String) : String :=
  get_cache_key md5hex query profile ++ ".pkl"

/-- `_sign_cache`: prepend the 32-byte HMAC of `data` under `secret`. -/
def sign_cache (mac : List Nat → List Nat → List Nat) (secret data : List Nat) :
    List Nat :=
  mac secret data ++ data

/-- `_verify_cache`: reject if shorter than a MAC, split MAC ‖ payload,
recompute and compare (`hmac.compare_digest` is equality). -/
def verify_cache (mac : List Nat → List Nat → List Nat) (secret : List Nat)
    (signed : List Nat) : Option (List Nat) :=
  if signed.length < 32 then none
  else
    if signed.take 32 == mac secret (signed.drop 32) then some (signed.drop 32)
    else none

/-- `_get_cached_response`: absent if no file; if within the TTL, read and
verify — MAC mismatch or a deserialization fault deletes the file and yields
absent; an expired file yields absent with no deletion.  Returns the payload
(or none) together with the store after the read's side effects. -/
def get_cached_response {α : Type} (mac : List Nat → List Nat → List Nat)
    (secret : List Nat) (loads : List Nat → Option α) (md5hex : String → String)
    (store : CacheStore) (now : Nat) (query profile : String) :
    Option α × CacheStore :=
  match storeGet store (cacheFileName md5hex query profile) with
  | none => (none, store)
  | some file =>
    if now - file.mtime < CACHE_TTL then
      match verify_cache mac secret file.bytes with
      | none => (none, storeDel store (cacheFileName md5hex query profile))
      | some data =>
        match loads data with
        | none => (none, storeDel store (cacheFileName md5hex query profile))
        | some payload => (some payload, store)
    else (none, store)

/-- `_cache_response`: serialize, sign, write under the derived file name
with the current time as mtime.  (The permission bits and the silent failure
of an unwritable store are not modelled; the success path is.) -/
def cache_response {α : Type} (mac : List Nat → List Nat → List Nat)
    (secret : List Nat) (dumps : α → List Nat) (md5hex : String → String)
    (store : CacheStore) (now : Nat) (query profile : String) (response : α) :
    CacheStore :=
  storeSet store (cacheFileName md5hex query profile)
    { bytes := sign_cache mac secret (dumps response), mtime := now }

/-! ## tui_app.py — alias loading -/

/-- Lower-casing used to model Python `.lower()` and `re.IGNORECASE` (every
alias denylist pattern is written in lower case, so
`re.search(p, c, re.IGNORECASE)` agrees with `re.search(p, c.lower())`).
Defined on the character list so that it evaluates by kernel reduction. -/
def lowerStr (s : String) : String := String.mk (s.data.map Char.toLower)

/-- Python `s.startswith(pre)`, on the character list. -/
def strStartsWith (s pre : String) : Bool := pre.data.isPrefixOf s.data

/-- Python `s[n:]`, on the character list. -/
def strDrop (s : String) (n : Nat) : String := String.mk (s.data.drop n)

/-- Python `s.strip()` (ASCII whitespace), on the character list. -/
def strTrim (s : String) : String :=
  String.mk (((s.data.dropWhile isSpaceChar).reverse.dropWhile isSpaceChar).reverse)

/-- `dangerous_patterns` from `_load_aliases`, in source order. -/
def dangerous_patterns : List RE := [
  -- curl\s+http
  rseq [rstr "curl", rplus .space, rstr "http"],
  -- wget\s+http
  rseq [rstr "wget", rplus .space, rstr "http"],
  -- \$\(
  rstr "$(",
  -- `
  rstr "`",
  -- ;\s*rm\s+-rf
  rseq [.ch ';', .star .space, rstr "rm", rplus .space, rstr "-rf"],
  -- \|\s*sh
  rseq [.ch '|', .star .space, rstr "sh"],
  -- \|\s*bash
  rseq [.ch '|', .star .space, rstr "bash"]]

/-- `is_safe_alias` from `_load_aliases`: no denylist pattern matches
(case-insensitively). -/
def is_safe_alias (command : String) : Bool :=
  !(dangerous_patterns.any fun p => research p (lowerStr command))

/-- The `default_aliases` dict written on first run. -/
def default_aliases : List (String × String) := [
  ("update", "sudo apt update && sudo apt upgrade -y"),
  ("ports", "sudo netstat -tulpn"),
  ("myip", "curl -s ifconfig.me"),
  ("clean", "sudo apt autoremove -y && sudo apt clean")]

/-- `_load_aliases`: `file` is `none` when aliases.json does not exist (the
defaults are written; `writeOk = false` models the write failing, leaving an
empty set), `some none` when reading or JSON parsing raises (empty set), and
`some (some entries)` for a successfully parsed store, which is filtered
through `is_safe_alias`. -/
def load_aliases (file : Option (Option (List (String × String))))
    (writeOk : Bool) : List (String × String) :=
  match file with
  | none => if writeOk then default_aliases else []
  | some none => []
  | some (some loaded) => loaded.filter fun nc => is_safe_alias nc.2

/-! ## tui_app.py — `_handle_input` / `_run_command`

The handler is embedded as a pure step function over the session state
(`_pending_cmd`, `_pending_alias`, `aliases`, `suggestions`, `history`,
`last_error`).  Rendering calls are dropped; the semantically relevant
actions (invoking the executor, querying the AI, classifying, queueing a
pending command, signalling refusal or cancellation) are recorded as an
effect trace.  External collaborators are an `Oracles` record:
`ai` for `get_ai_response_async` (total: ai_core catches every exception and
returns a dict), `execRes` for `executor.execute`, `fix` for
`get_error_fix`, and `isInteractive` for `is_interactive_command` — the
latter is imported by tui_app.py from executor but is not defined anywhere
under src/, so it is left an uninterpreted predicate; every theorem below
holds for all of its instantiations. -/

structure Suggestion where
  cmd : String
  why : String
deriving DecidableEq, Repr

/-- The parsed AI response dict consumed by `_handle_input`. -/
structure AIResponse where
  command : String
  explanation : String
  warning : String
  next_steps : List Suggestion
deriving DecidableEq, Repr

/-- The parsed error-fix dict from `get_error_fix`. -/
structure FixResponse where
  diagnosis : String
  fix_command : String
  explanation : String
deriving DecidableEq, Repr

/-- Session-scoped mutable state of `ShellSenseiApp` used by the handler. -/
structure TuiState where
  pending_cmd : String
  pending_alias : String
  aliases : List (String × String)
  suggestions : List Suggestion
  history : List String
  last_error : Option (String × String)
deriving DecidableEq, Repr

/-- The external collaborators of the handler. -/
structure Oracles where
  ai : String → AIResponse
  isInteractive : String → Bool
  execRes : String → ExecResult
  fix : String → String → FixResponse

/-- Semantically relevant actions of one handler step, in order. -/
inductive Effect where
  | execCmd (cmd : String)
  | classified (cmd level : String)
  | confirmedPending (cmd : String)
  | proposePending (cmd : String)
  | errorFixProposed (cmd : String)
  | aiQuery (text : String)
  | noCommandExplanation
  | blockedRefusal (cmd : String)
  | interactiveNotice (cmd : String)
  | stdinNotice (cmd : String)
  | suggestionPicked (idx : Nat) (cmd : String)
  | rawRun (cmd : String)
  | aliasAsk (name expanded : String)
  | aliasExpanded (name expanded : String)
  | aliasUnknown (name : String)
  | aliasCancelled
  | cmdCancelled
  | exitApp
  | showHelp
  | showProfile
  | showProgress
deriving DecidableEq, Repr

/-- `error_text = result["error"].strip() or "Unknown error"`. -/
def errTextOf (r : ExecResult) : String :=
  if strTrim r.error = "" then "Unknown error" else strTrim r.error

/-- `_run_command`: invoke the executor, append to history; on failure,
record the error and — when `get_error_fix` returns a non-empty
`fix_command` — queue that fix as the new pending command (with no safety
classification). -/
def runCommand (o : Oracles) (st : TuiState) (cmd : String) :
    TuiState × List Effect :=
  if (o.execRes cmd).success then
    ({ st with history := st.history ++ [cmd], last_error := none },
     [Effect.execCmd cmd])
  else
    if (o.fix (errTextOf (o.execRes cmd)) cmd).fix_command = "" then
      ({ st with history := st.history ++ [cmd],
                 last_error := some (cmd, errTextOf (o.execRes cmd)) },
       [Effect.execCmd cmd])
    else
      ({ st with history := st.history ++ [cmd],
                 last_error := some (cmd, errTextOf (o.execRes cmd)),
                 pending_cmd := (o.fix (errTextOf (o.execRes cmd)) cmd).fix_command },
       [Effect.execCmd cmd,
        Effect.errorFixProposed ((o.fix (errTextOf (o.execRes cmd)) cmd).fix_command)])

/-- `raw.lower() in ("y", "yes")`. -/
def isYesInput (raw : String) : Bool :=
  lowerStr raw == "y" || lowerStr raw == "yes"

/-- `raw.lower() in ("n", "no")`. -/
def isNoInput (raw : String) : Bool :=
  lowerStr raw == "n" || lowerStr raw == "no"

/-- The commands treated as needing stdin (`stdin_cmds` in the handler). -/
def stdin_cmds : List String := ["cat", "grep", "sed", "awk", "sort", "uniq", "wc"]

/-- The index picked by a `"1"`/`"2"`/`"3"` input (`int(raw) - 1`). -/
def suggIdx (raw : String) : Nat :=
  if raw = "1" then 0 else if raw = "2" then 1 else 2

/-- The tail of `_handle_input` from the `--- Normal AI query ---` comment
on: query the oracle; with no command, just record the suggestions;
otherwise record them and fall through the interactive check, the
bare-stdin-command check, and the safety check; a dangerous verdict is
refused, anything else becomes the pending command. -/
def aiPath (o : Oracles) (st : TuiState) (raw : String) : TuiState × List Effect :=
  if (o.ai raw).command = "" then
    ({ st with suggestions := (o.ai raw).next_steps },
     [Effect.aiQuery raw, Effect.noCommandExplanation])
  else if o.isInteractive (o.ai raw).command then
    ({ st with suggestions := (o.ai raw).next_steps },
     [Effect.aiQuery raw, Effect.interactiveNotice ((o.ai raw).command)])
  else if stdin_cmds.contains (strTrim (o.ai raw).command) then
    ({ st with suggestions := (o.ai raw).next_steps },
     [Effect.aiQuery raw, Effect.stdinNotice (strTrim (o.ai raw).command)])
  else if (check_safety (o.ai raw).command).1 = "dangerous" then
    ({ st with suggestions := (o.ai raw).next_steps },
     [Effect.aiQuery raw,
      Effect.classified (o.ai raw).command (check_safety (o.ai raw).command).1,
      Effect.blockedRefusal ((o.ai raw).command)])
  else
    ({ st with suggestions := (o.ai raw).next_steps,
               pending_cmd := (o.ai raw).command },
     [Effect.aiQuery raw,
      Effect.classified (o.ai raw).command (check_safety (o.ai raw).command).1,
      Effect.proposePending ((o.ai raw).command)])

/-- The `run <cmd>` branch followed by the AI fallthrough: a non-empty
argument is executed immediately (no classification, no confirmation);
otherwise the input is an AI query. -/
def runOrAi (o : Oracles) (st : TuiState) (raw : String) : TuiState × List Effect :=
  if strStartsWith (lowerStr raw) "run " then
    if strTrim (strDrop raw 4) = "" then aiPath o st raw
    else
      ((runCommand o st (strTrim (strDrop raw 4))).1,
       Effect.rawRun (strTrim (strDrop raw 4)) :: (runCommand o st (strTrim (strDrop raw 4))).2)
  else aiPath o st raw

/-- `_handle_input` after the alias-confirmation block: alias invocation
(`/name`), the special commands, y/n for the pending command, suggestion
picks (falling through when the index is out of range or the picked command
empty, exactly as the missing `return` in the source does), then `run <cmd>`
and the AI query. -/
def processInput (o : Oracles) (st : TuiState) (raw : String) :
    TuiState × List Effect :=
  if strStartsWith raw "/" then
    match st.aliases.lookup (strDrop raw 1) with
    | some expanded =>
      ({ st with pending_alias := strDrop raw 1 },
       [Effect.aliasAsk (strDrop raw 1) expanded])
    | none => (st, [Effect.aliasUnknown (strDrop raw 1)])
  else if lowerStr raw = "exit" ∨ lowerStr raw = "quit" ∨ lowerStr raw = "q" then
    (st, [Effect.exitApp])
  else if lowerStr raw = "help" then (st, [Effect.showHelp])
  else if lowerStr raw = "profile" then (st, [Effect.showProfile])
  else if lowerStr raw = "progress" then (st, [Effect.showProgress])
  else if isYesInput raw ∧ st.pending_cmd ≠ "" then
    ((runCommand o { st with pending_cmd := "" } st.pending_cmd).1,
     Effect.confirmedPending st.pending_cmd ::
       (runCommand o { st with pending_cmd := "" } st.pending_cmd).2)
  else if isNoInput raw ∧ st.pending_cmd ≠ "" then
    ({ st with pending_cmd := "" }, [Effect.cmdCancelled])
  else if (raw = "1" ∨ raw = "2" ∨ raw = "3") ∧ st.suggestions ≠ [] then
    if h : suggIdx raw < st.suggestions.length then
      if (st.suggestions.get ⟨suggIdx raw, h⟩).cmd = "" then runOrAi o st raw
      else
        ((runCommand o st (st.suggestions.get ⟨suggIdx raw, h⟩).cmd).1,
         Effect.suggestionPicked (suggIdx raw) (st.suggestions.get ⟨suggIdx raw, h⟩).cmd ::
           (runCommand o st (st.suggestions.get ⟨suggIdx raw, h⟩).cmd).2)
    else runOrAi o st raw
  else runOrAi o st raw

/-- `_handle_input` in full: the leading empty-input guard and the
alias-confirmation block.  Confirming a pending alias clears it, replaces
`raw` with the alias expansion, and *continues processing the expanded
command through the same pipeline* (the source comment's words) — it does
not invoke the executor directly. -/
def handleInput (o : Oracles) (st : TuiState) (raw : String) :
    TuiState × List Effect :=
  if raw = "" then (st, [])
  else if isYesInput raw ∧ st.pending_alias ≠ "" then
    ((processInput o { st with pending_alias := "" }
        ((st.aliases.lookup st.pending_alias).getD "")).1,
     Effect.aliasExpanded st.pending_alias ((st.aliases.lookup st.pending_alias).getD "") ::
       (processInput o { st with pending_alias := "" }
          ((st.aliases.lookup st.pending_alias).getD "")).2)
  else if isNoInput raw ∧ st.pending_alias ≠ "" then
    ({ st with pending_alias := "" }, [Effect.aliasCancelled])
  else processInput o st raw

/-- A whole session: fold `handleInput` over a list of submitted inputs,
concatenating the effect traces. -/
def session (o : Oracles) (st : TuiState) (inputs : List String) :
    TuiState × List Effect :=
  match inputs with
  | [] => (st, [])
  | i :: rest =>
    ((session o (handleInput o st i).1 rest).1,
     (handleInput o st i).2 ++ (session o (handleInput o st i).1 rest).2)

/-- The session state at application start (`on_mount` with an empty alias
store modelled separately via `load_aliases`). -/
def initState (aliases : List (String × String)) : TuiState :=
  { pending_cmd := "", pending_alias := "", aliases := aliases,
    suggestions := [], history := [], last_error := none }

/-- Bool test for an executor invocation in a trace. -/
def isExecEffect : Effect → Bool
  | .execCmd _ => true
  | _ => false

/-- Bool test for a classification event in a trace. -/
def isClassifiedEffect : Effect → Bool
  | .classified _ _ => true
  | _ => false

/-- Bool test for a confirmation event in a trace. -/
def isConfirmedEffect : Effect → Bool
  | .confirmedPending _ => true
  | _ => false

/-! ## Concrete instances used by the counterexample theorems -/

/-- A minimal external environment: the AI returns no command, nothing is
interactive, every execution succeeds instantly, no fix is offered. -/
def oraclesBase : Oracles :=
  { ai := fun _ => { command := "", explanation := "", warning := "", next_steps := [] },
    isInteractive := fun _ => false,
    execRes := fun _ => { success := true, output := "", error := "", exit_code := 0,
                          duration_ms := 1 },
    fix := fun _ _ => { diagnosis := "", fix_command := "", explanation := "" } }

/-- An environment whose AI proposes `rm -rf /` for every query. -/
def oraclesDanger : Oracles :=
  { oraclesBase with
    ai := fun _ => { command := "rm -rf /", explanation := "wipes the disk",
                     warning := "", next_steps := [] } }

/-- A session state with a previously queued pending command. -/
def statePendingLs : TuiState := { initState [] with pending_cmd := "ls" }

/-- A session state awaiting confirmation of the default `update` alias. -/
def stateAliasUpdate : TuiState :=
  { initState [("update", "sudo apt update && sudo apt upgrade -y")] with
    pending_alias := "update" }

/-! ## Helper lemmas -/

/-- A `filterMap` whose function is a guarded `some` is a `filter` followed
by a `map`: the caution loop keeps one reason per matching pattern, in
registry order. -/
theorem filterMap_guard_eq_map_filter {α β : Type} (p : α → Bool) (f : α → β)
    (l : List α) :
    (l.filterMap fun a => if p a then some (f a) else none)
      = (l.filter p).map f := by
  induction l with
  | nil => rfl
  | cons a t ih =>
    by_cases h : p a <;> simp [List.filterMap_cons, List.filter_cons, h, ih]

/-! ## C2 — classifier algorithm -/

/-- C2: `check_safety` returns the Dangerous tier with the single fixed
reason as soon as any blocking pattern matches; with no blocking match the
accumulated reasons are exactly the messages of the matching caution
patterns in registry order (duplicates kept, one per match, so k matches
give k reasons), a non-empty list yields the Caution tier with those reasons
joined for display, and no match at all yields Safe with no reason. -/
theorem claim_C2 (cmd : String) :
    ((∃ p, p ∈ BLOCKED_PATTERNS ∧ research p cmd = true) →
        check_safety cmd = ("dangerous", blockedMessage))
    ∧ ((∀ p, p ∈ BLOCKED_PATTERNS → research p cmd = false) →
        cautionWarnings cmd
            = (CAUTION_PATTERNS.filter fun pm => research pm.1 cmd).map Prod.snd
        ∧ (cautionWarnings cmd = [] → check_safety cmd = ("safe", ""))
        ∧ (cautionWarnings cmd ≠ [] →
            check_safety cmd
              = ("caution", String.intercalate " | " (cautionWarnings cmd)))) := by
  constructor
  · intro h
    rcases h with ⟨p, hp, hr⟩
    have hany : BLOCKED_PATTERNS.any (fun p => research p cmd) = true :=
      List.any_eq_true.mpr ⟨p, hp, hr⟩
    simp [check_safety, hany]
  · intro h
    have hany : BLOCKED_PATTERNS.any (fun p => research p cmd) = false := by
      rw [List.any_eq_false]
      intro p hp
      simp [h p hp]
    refine ⟨filterMap_guard_eq_map_filter _ _ _, ?_, ?_⟩
    · intro he
      simp [check_safety, hany, he]
    · intro hne
      simp [check_safety, hany, List.isEmpty_eq_false_iff_exists_mem.mpr
        (List.exists_mem_of_ne_nil _ hne)]

/-- C2 witness: `sudo dd if=/tmp/a of=/tmp/b` matches no blocking pattern
and exactly the two caution patterns for sudo and dd, in registry order. -/
theorem claim_C2_witness :
    check_safety "sudo dd if=/tmp/a of=/tmp/b"
      = ("caution",
         "This command requires administrator (sudo) privileges. | dd can be dangerous if used incorrectly.") := by
  have h := ((claim_C2 "sudo dd if=/tmp/a of=/tmp/b").2 (by decide)).2.2 (by decide)
  rw [h]
  rfl

/-! ## C3 — blocking-pattern obligations -/

/-- C3 counterexample: the claim's own example of a recursive
world-writable permission change on root, `chmod -R 777 /`, is classified
Caution, not Dangerous — the blocking registry only covers the
non-recursive `chmod 777 /` form. -/
theorem claim_C3_counterexample :
    (check_safety "chmod -R 777 /").1 = "caution"
    ∧ ((check_safety "chmod -R 777 /").1 != "dangerous") = true := by
  constructor <;> rfl

/-- C3 (amended): every obligated blocking family is classified Dangerous —
root filesystem deletion (`rm -rf /` and the listed system directories),
disk-duplication writes to `/dev/sd*`, `/dev/hd*`, `/dev/nvme*`,
filesystem-creation utilities, both fork-bomb idioms, the
`--no-preserve-root` flag, and recursive ownership change on root — except
that the world-writable permission change on root is blocked only in its
non-recursive form `chmod 777 /`; the recursive form `chmod -R 777 /` is
classified Caution. -/
theorem claim_C3_amended :
    (check_safety "rm -rf /").1 = "dangerous"
    ∧ (check_safety "rm -rf /etc").1 = "dangerous"
    ∧ (check_safety "rm -rf /usr").1 = "dangerous"
    ∧ (check_safety "rm -rf /var").1 = "dangerous"
    ∧ (check_safety "rm -rf /bin").1 = "dangerous"
    ∧ (check_safety "rm -rf /sbin").1 = "dangerous"
    ∧ (check_safety "rm -rf /lib").1 = "dangerous"
    ∧ (check_safety "rm -rf /boot").1 = "dangerous"
    ∧ (check_safety "rm -rf /home").1 = "dangerous"
    ∧ (check_safety "dd if=/dev/zero of=/dev/sda").1 = "dangerous"
    ∧ (check_safety "dd if=/dev/zero of=/dev/hda1").1 = "dangerous"
    ∧ (check_safety "dd if=/dev/zero of=/dev/nvme0n1").1 = "dangerous"
    ∧ (check_safety "mkfs.ext4 /dev/sda1").1 = "dangerous"
    ∧ (check_safety ":()\x7b :|:& \x7d;:").1 = "dangerous"
    ∧ (check_safety ":()\x7b :|: & \x7d;:").1 = "dangerous"
    ∧ (check_safety "rm --no-preserve-root -r /").1 = "dangerous"
    ∧ (check_safety "chmod 777 /").1 = "dangerous"
    ∧ (check_safety "chown -R root /").1 = "dangerous"
    ∧ (check_safety "chmod -R 777 /").1 = "caution" :=
  ⟨rfl, rfl, rfl, rfl, rfl, rfl, rfl, rfl, rfl, rfl, rfl, rfl, rfl, rfl, rfl,
   rfl, rfl, rfl, rfl⟩

/-! ## Trace-shape lemmas for the handler -/

/-- `_run_command` emits exactly one executor invocation, possibly followed
by an error-fix proposal. -/
theorem runCommand_trace (o : Oracles) (st : TuiState) (cmd : String) :
    (runCommand o st cmd).2 = [Effect.execCmd cmd]
    ∨ ∃ f, (runCommand o st cmd).2
        = [Effect.execCmd cmd, Effect.errorFixProposed f] := by
  by_cases h1 : (o.execRes cmd).success
  · exact Or.inl (by simp [runCommand, h1])
  · by_cases h2 : (o.fix (errTextOf (o.execRes cmd)) cmd).fix_command = ""
    · exact Or.inl (by simp [runCommand, h1, h2])
    · exact Or.inr ⟨(o.fix (errTextOf (o.execRes cmd)) cmd).fix_command,
        by simp [runCommand, h1, h2]⟩

/-- The only command `_run_command cmd` ever hands to the executor is `cmd`
itself. -/
theorem runCommand_exec_eq (o : Oracles) (st : TuiState) (cmd c : String)
    (h : Effect.execCmd c ∈ (runCommand o st cmd).2) : c = cmd := by
  rcases runCommand_trace o st cmd with ht | ⟨f, ht⟩ <;> rw [ht] at h <;>
    simp at h <;> exact h

/-- `_run_command` never issues an AI query. -/
theorem runCommand_no_ai (o : Oracles) (st : TuiState) (cmd q : String) :
    Effect.aiQuery q ∉ (runCommand o st cmd).2 := by
  rcases runCommand_trace o st cmd with ht | ⟨f, ht⟩ <;> rw [ht] <;> simp

/-- `_run_command` never queues a classified pending command. -/
theorem runCommand_no_propose (o : Oracles) (st : TuiState) (cmd c : String) :
    Effect.proposePending c ∉ (runCommand o st cmd).2 := by
  rcases runCommand_trace o st cmd with ht | ⟨f, ht⟩ <;> rw [ht] <;> simp

/-- The AI-query tail never invokes the executor itself. -/
theorem aiPath_no_exec (o : Oracles) (st : TuiState) (raw c : String) :
    Effect.execCmd c ∉ (aiPath o st raw).2 := by
  unfold aiPath
  split_ifs <;> simp

/-- A command queued as pending by the AI-query tail is the oracle's
command, and it was classified non-dangerous. -/
theorem aiPath_propose (o : Oracles) (st : TuiState) (raw c : String)
    (h : Effect.proposePending c ∈ (aiPath o st raw).2) :
    c = (o.ai raw).command ∧ (check_safety c).1 ≠ "dangerous" := by
  unfold aiPath at h
  split_ifs at h with h1 h2 h3 h4 <;> simp at h
  subst h
  exact ⟨rfl, h4⟩

/-- An executor invocation in the `run <cmd>`/AI block means the input had
the `run ` shape and the executed command is its argument. -/
theorem runOrAi_exec (o : Oracles) (st : TuiState) (raw c : String)
    (h : Effect.execCmd c ∈ (runOrAi o st raw).2) :
    strStartsWith (lowerStr raw) "run " = true ∧ c = strTrim (strDrop raw 4) := by
  unfold runOrAi at h
  split_ifs at h with h1 h2
  · exact absurd h (aiPath_no_exec o st raw c)
  · simp only [List.mem_cons] at h
    rcases h with h | h
    · simp at h
    · exact ⟨h1, runCommand_exec_eq o st _ c h⟩
  · exact absurd h (aiPath_no_exec o st raw c)

/-- A pending command queued in the `run <cmd>`/AI block was classified
non-dangerous. -/
theorem runOrAi_propose (o : Oracles) (st : TuiState) (raw c : String)
    (h : Effect.proposePending c ∈ (runOrAi o st raw).2) :
    (check_safety c).1 ≠ "dangerous" := by
  unfold runOrAi at h
  split_ifs at h with h1 h2
  · exact (aiPath_propose o st raw c h).2
  · simp only [List.mem_cons] at h
    rcases h with h | h
    · simp at h
    · exact absurd h (runCommand_no_propose o st _ c)
  · exact (aiPath_propose o st raw c h).2

/-- If the `run <cmd>`/AI block issued an AI query, it is the AI-query
tail. -/
theorem runOrAi_ai (o : Oracles) (st : TuiState) (raw : String)
    (h : Effect.aiQuery raw ∈ (runOrAi o st raw).2) :
    runOrAi o st raw = aiPath o st raw := by
  unfold runOrAi at h ⊢
  split_ifs at h ⊢ with h1 h2
  · rfl
  · simp only [List.mem_cons] at h
    rcases h with h | h
    · simp at h
    · exact absurd h (runCommand_no_ai o st _ raw)
  · rfl

/-- An executor invocation in a handler step arises from exactly one of:
confirming the pending command with y/yes, a `run <cmd>` input, or picking
one of the current suggestions. -/
theorem processInput_exec (o : Oracles) (st : TuiState) (raw c : String)
    (h : Effect.execCmd c ∈ (processInput o st raw).2) :
    (isYesInput raw = true ∧ st.pending_cmd = c)
    ∨ (strStartsWith (lowerStr raw) "run " = true ∧ c = strTrim (strDrop raw 4))
    ∨ (∃ s, s ∈ st.suggestions ∧ s.cmd = c) := by
  unfold processInput at h
  by_cases h1 : strStartsWith raw "/"
  · rw [if_pos h1] at h
    rcases hl : st.aliases.lookup (strDrop raw 1) with _ | ex <;> rw [hl] at h <;>
      simp at h
  rw [if_neg h1] at h
  by_cases h2 : lowerStr raw = "exit" ∨ lowerStr raw = "quit" ∨ lowerStr raw = "q"
  · rw [if_pos h2] at h; simp at h
  rw [if_neg h2] at h
  by_cases h3 : lowerStr raw = "help"
  · rw [if_pos h3] at h; simp at h
  rw [if_neg h3] at h
  by_cases h4 : lowerStr raw = "profile"
  · rw [if_pos h4] at h; simp at h
  rw [if_neg h4] at h
  by_cases h5 : lowerStr raw = "progress"
  · rw [if_pos h5] at h; simp at h
  rw [if_neg h5] at h
  by_cases h6 : isYesInput raw = true ∧ st.pending_cmd ≠ ""
  · rw [if_pos h6] at h
    simp only [List.mem_cons] at h
    rcases h with h | h
    · simp at h
    · exact Or.inl ⟨h6.1, (runCommand_exec_eq _ _ _ _ h).symm⟩
  rw [if_neg h6] at h
  by_cases h7 : isNoInput raw = true ∧ st.pending_cmd ≠ ""
  · rw [if_pos h7] at h; simp at h
  rw [if_neg h7] at h
  by_cases h8 : (raw = "1" ∨ raw = "2" ∨ raw = "3") ∧ st.suggestions ≠ []
  · rw [if_pos h8] at h
    by_cases h9 : suggIdx raw < st.suggestions.length
    · rw [dif_pos h9] at h
      by_cases h10 : (st.suggestions.get ⟨suggIdx raw, h9⟩).cmd = ""
      · rw [if_pos h10] at h
        exact Or.inr (Or.inl (runOrAi_exec o st raw c h))
      · rw [if_neg h10] at h
        simp only [List.mem_cons] at h
        rcases h with h | h
        · simp at h
        · exact Or.inr (Or.inr ⟨_, List.get_mem _ _ _,
            (runCommand_exec_eq _ _ _ _ h).symm⟩)
    · rw [dif_neg h9] at h
      exact Or.inr (Or.inl (runOrAi_exec o st raw c h))
  · rw [if_neg h8] at h
    exact Or.inr (Or.inl (runOrAi_exec o st raw c h))

/-- A command queued as pending by a handler step through the AI path was
classified non-dangerous. -/
theorem processInput_propose (o : Oracles) (st : TuiState) (raw c : String)
    (h : Effect.proposePending c ∈ (processInput o st raw).2) :
    (check_safety c).1 ≠ "dangerous" := by
  unfold processInput at h
  by_cases h1 : strStartsWith raw "/"
  · rw [if_pos h1] at h
    rcases hl : st.aliases.lookup (strDrop raw 1) with _ | ex <;> rw [hl] at h <;>
      simp at h
  rw [if_neg h1] at h
  by_cases h2 : lowerStr raw = "exit" ∨ lowerStr raw = "quit" ∨ lowerStr raw = "q"
  · rw [if_pos h2] at h; simp at h
  rw [if_neg h2] at h
  by_cases h3 : lowerStr raw = "help"
  · rw [if_pos h3] at h; simp at h
  rw [if_neg h3] at h
  by_cases h4 : lowerStr raw = "profile"
  · rw [if_pos h4] at h; simp at h
  rw [if_neg h4] at h
  by_cases h5 : lowerStr raw = "progress"
  · rw [if_pos h5] at h; simp at h
  rw [if_neg h5] at h
  by_cases h6 : isYesInput raw = true ∧ st.pending_cmd ≠ ""
  · rw [if_pos h6] at h
    simp only [List.mem_cons] at h
    rcases h with h | h
    · simp at h
    · exact absurd h (runCommand_no_propose _ _ _ _)
  rw [if_neg h6] at h
  by_cases h7 : isNoInput raw = true ∧ st.pending_cmd ≠ ""
  · rw [if_pos h7] at h; simp at h
  rw [if_neg h7] at h
  by_cases h8 : (raw = "1" ∨ raw = "2" ∨ raw = "3") ∧ st.suggestions ≠ []
  · rw [if_pos h8] at h
    by_cases h9 : suggIdx raw < st.suggestions.length
    · rw [dif_pos h9] at h
      by_cases h10 : (st.suggestions.get ⟨suggIdx raw, h9⟩).cmd = ""
      · rw [if_pos h10] at h
        exact runOrAi_propose o st raw c h
      · rw [if_neg h10] at h
        simp only [List.mem_cons] at h
        rcases h with h | h
        · simp at h
        · exact absurd h (runCommand_no_propose _ _ _ _)
    · rw [dif_neg h9] at h
      exact runOrAi_propose o st raw c h
  · rw [if_neg h8] at h
    exact runOrAi_propose o st raw c h

/-- A handler step that issued an AI query is the AI-query tail: no other
branch queries the oracle. -/
theorem processInput_ai (o : Oracles) (st : TuiState) (raw : String)
    (h : Effect.aiQuery raw ∈ (processInput o st raw).2) :
    processInput o st raw = aiPath o st raw := by
  unfold processInput at h ⊢
  by_cases h1 : strStartsWith raw "/"
  · rw [if_pos h1] at h
    rcases hl : st.aliases.lookup (strDrop raw 1) with _ | ex <;> rw [hl] at h <;>
      simp at h
  rw [if_neg h1] at h ⊢
  by_cases h2 : lowerStr raw = "exit" ∨ lowerStr raw = "quit" ∨ lowerStr raw = "q"
  · rw [if_pos h2] at h; simp at h
  rw [if_neg h2] at h ⊢
  by_cases h3 : lowerStr raw = "help"
  · rw [if_pos h3] at h; simp at h
  rw [if_neg h3] at h ⊢
  by_cases h4 : lowerStr raw = "profile"
  · rw [if_pos h4] at h; simp at h
  rw [if_neg h4] at h ⊢
  by_cases h5 : lowerStr raw = "progress"
  · rw [if_pos h5] at h; simp at h
  rw [if_neg h5] at h ⊢
  by_cases h6 : isYesInput raw = true ∧ st.pending_cmd ≠ ""
  · rw [if_pos h6] at h
    simp only [List.mem_cons] at h
    rcases h with h | h
    · simp at h
    · exact absurd h (runCommand_no_ai _ _ _ _)
  rw [if_neg h6] at h ⊢
  by_cases h7 : isNoInput raw = true ∧ st.pending_cmd ≠ ""
  · rw [if_pos h7] at h; simp at h
  rw [if_neg h7] at h ⊢
  by_cases h8 : (raw = "1" ∨ raw = "2" ∨ raw = "3") ∧ st.suggestions ≠ []
  · rw [if_pos h8] at h ⊢
    by_cases h9 : suggIdx raw < st.suggestions.length
    · rw [dif_pos h9] at h ⊢
      by_cases h10 : (st.suggestions.get ⟨suggIdx raw, h9⟩).cmd = ""
      · rw [if_pos h10] at h ⊢
        exact runOrAi_ai o st raw h
      · rw [if_neg h10] at h
        simp only [List.mem_cons] at h
        rcases h with h | h
        · simp at h
        · exact absurd h (runCommand_no_ai _ _ _ _)
    · rw [dif_neg h9] at h ⊢
      exact runOrAi_ai o st raw h
  · rw [if_neg h8] at h ⊢
    exact runOrAi_ai o st raw h

/-! ## C1 — classification + confirmation before execution -/

/-- C1 counterexample: in a session from the initial state consisting of the
single input `run echo hi`, the Execution Sandbox is invoked on `echo hi`
although the trace contains no risk classification and no confirmation of a
pending proposal at all — the `run <cmd>` path executes directly. -/
theorem claim_C1_counterexample :
    Effect.execCmd "echo hi" ∈ (session oraclesBase (initState []) ["run echo hi"]).2
    ∧ (session oraclesBase (initState []) ["run echo hi"]).2.all
        (fun e => !isClassifiedEffect e && !isConfirmedEffect e) = true := by
  constructor
  · decide
  · rfl

/-- C1 (amended): an executor invocation in a handler step arises only from
(i) a y/yes input confirming the pending command, (ii) a `run <cmd>` input
with the executed command its argument, or (iii) picking one of the current
suggestions — paths (ii) and (iii) execute with neither classification nor
a separate confirmation; a command queued as pending through the AI path
has been classified non-dangerous; and the alias-confirmation layer only
ever executes through the same pipeline applied to the alias expansion. -/
theorem claim_C1_amended (o : Oracles) (st : TuiState) (raw c : String) :
    (Effect.execCmd c ∈ (processInput o st raw).2 →
      (isYesInput raw = true ∧ st.pending_cmd = c)
      ∨ (strStartsWith (lowerStr raw) "run " = true ∧ c = strTrim (strDrop raw 4))
      ∨ (∃ s, s ∈ st.suggestions ∧ s.cmd = c))
    ∧ (Effect.proposePending c ∈ (processInput o st raw).2 →
        (check_safety c).1 ≠ "dangerous")
    ∧ (Effect.execCmd c ∈ (handleInput o st raw).2 →
        Effect.execCmd c ∈ (processInput o st raw).2
        ∨ Effect.execCmd c ∈ (processInput o { st with pending_alias := "" }
            ((st.aliases.lookup st.pending_alias).getD "")).2) := by
  refine ⟨processInput_exec o st raw c, processInput_propose o st raw c, ?_⟩
  intro h
  unfold handleInput at h
  by_cases h1 : raw = ""
  · rw [if_pos h1] at h; simp at h
  rw [if_neg h1] at h
  by_cases h2 : isYesInput raw = true ∧ st.pending_alias ≠ ""
  · rw [if_pos h2] at h
    simp only [List.mem_cons] at h
    rcases h with h | h
    · simp at h
    · exact Or.inr h
  rw [if_neg h2] at h
  by_cases h3 : isNoInput raw = true ∧ st.pending_alias ≠ ""
  · rw [if_pos h3] at h; simp at h
  · rw [if_neg h3] at h
    exact Or.inl h

/-- C1 witness: confirming the pending command `ls` with `y` hits shape (i)
of the amended execution provenance. -/
theorem claim_C1_amended_witness :
    (isYesInput "y" = true ∧ statePendingLs.pending_cmd = "ls")
    ∨ ((lowerStr "y").startsWith "run " = true ∧ "ls" = strTrim (strDrop "y" 4))
    ∨ (∃ s, s ∈ statePendingLs.suggestions ∧ s.cmd = "ls") :=
  (claim_C1_amended oraclesBase statePendingLs "y" "ls").1 (by decide)

/-! ## C4 — dangerous proposals -/

/-- C4 counterexample: from a state whose pending command is `ls`, an AI
query answered with the Dangerous command `rm -rf /` is refused, but the
previously pending action is NOT discarded — the machine is left with `ls`
still pending, not in Idle with no pending action. -/
theorem claim_C4_counterexample :
    Effect.blockedRefusal "rm -rf /"
        ∈ (processInput oraclesDanger statePendingLs "wipe everything").2
    ∧ (processInput oraclesDanger statePendingLs "wipe everything").1.pending_cmd
        = "ls" := by
  constructor
  · decide
  · rfl

/-- C4 (amended): a handler step that queried the AI and got a command
classified Dangerous leaves both pending slots exactly as they were (a
previously pending action is retained, not discarded), queues nothing,
executes nothing, and — when the command is non-empty, non-interactive and
not a bare stdin command — signals refusal. -/
theorem claim_C4_amended (o : Oracles) (st : TuiState) (raw : String)
    (hq : Effect.aiQuery raw ∈ (processInput o st raw).2)
    (hd : (check_safety (o.ai raw).command).1 = "dangerous") :
    (processInput o st raw).1.pending_cmd = st.pending_cmd
    ∧ (processInput o st raw).1.pending_alias = st.pending_alias
    ∧ (∀ c, Effect.proposePending c ∉ (processInput o st raw).2)
    ∧ (∀ c, Effect.execCmd c ∉ (processInput o st raw).2)
    ∧ ((o.ai raw).command ≠ "" → o.isInteractive (o.ai raw).command = false →
        stdin_cmds.contains (strTrim (o.ai raw).command) = false →
        Effect.blockedRefusal (o.ai raw).command ∈ (processInput o st raw).2) := by
  rw [processInput_ai o st raw hq]
  unfold aiPath
  by_cases h1 : (o.ai raw).command = ""
  · rw [if_pos h1]
    exact ⟨rfl, rfl, fun c => by simp, fun c => by simp, fun hne => absurd h1 hne⟩
  rw [if_neg h1]
  by_cases h2 : o.isInteractive (o.ai raw).command = true
  · rw [if_pos h2]
    refine ⟨rfl, rfl, fun c => by simp, fun c => by simp, ?_⟩
    intro _ hni
    rw [h2] at hni
    simp at hni
  rw [if_neg h2]
  by_cases h3 : stdin_cmds.contains (strTrim (o.ai raw).command) = true
  · rw [if_pos h3]
    refine ⟨rfl, rfl, fun c => by simp, fun c => by simp, ?_⟩
    intro _ _ hns
    rw [h3] at hns
    simp at hns
  rw [if_neg h3, if_pos hd]
  exact ⟨rfl, rfl, fun c => by simp, fun c => by simp, fun _ _ _ => by simp⟩

/-- C4 witness: the amended theorem applied to the concrete dangerous
proposal of the counterexample state. -/
theorem claim_C4_amended_witness :
    (processInput oraclesDanger statePendingLs "wipe everything").1.pending_cmd
      = statePendingLs.pending_cmd :=
  (claim_C4_amended oraclesDanger statePendingLs "wipe everything"
    (by decide) (by decide)).1

/-! ## C5 — alias confirmation -/

/-- C5: confirming the pending alias `update` does NOT invoke the Execution
Sandbox on the resolved command — the expansion is re-fed through the input
pipeline and, matching no special shape, becomes a free-text AI query; the
trace shows the expansion and the AI query and contains no executor
invocation (the state does return to no-pending-alias). -/
theorem claim_C5_divergence :
    Effect.aliasExpanded "update" "sudo apt update && sudo apt upgrade -y"
        ∈ (handleInput oraclesBase stateAliasUpdate "y").2
    ∧ Effect.aiQuery "sudo apt update && sudo apt upgrade -y"
        ∈ (handleInput oraclesBase stateAliasUpdate "y").2
    ∧ (handleInput oraclesBase stateAliasUpdate "y").2.all
        (fun e => !isExecEffect e) = true
    ∧ (handleInput oraclesBase stateAliasUpdate "y").1.pending_alias = "" := by
  refine ⟨by decide, by decide, rfl, rfl⟩

/-! ## C6 — execution sandbox totality and failure shapes -/

/-- C6: `execute` returns a well-formed result for every outcome of the
spawned process: a timeout yields failure with exit code −1, the synthetic
timeout message and a duration of exactly `timeout * 1000` ms; any other
fault yields failure with the fault's message and exit code −1; graceful
completion reports the process's exit code, streams, and success exactly
when the exit code is 0. -/
theorem claim_C6 (command : String) (timeout elapsed : Nat) (rc : Int)
    (out err msg : String) :
    (execute command timeout .timedOut elapsed).success = false
    ∧ (execute command timeout .timedOut elapsed).exit_code = -1
    ∧ (execute command timeout .timedOut elapsed).error
        = s!"Command timed out after {timeout} seconds."
    ∧ (execute command timeout .timedOut elapsed).duration_ms = timeout * 1000
    ∧ (execute command timeout (.raised msg) elapsed).success = false
    ∧ (execute command timeout (.raised msg) elapsed).exit_code = -1
    ∧ (execute command timeout (.raised msg) elapsed).error = msg
    ∧ (execute command timeout (.raised msg) elapsed).duration_ms = elapsed
    ∧ (execute command timeout (.completed rc out err) elapsed).success = (rc == 0)
    ∧ (execute command timeout (.completed rc out err) elapsed).exit_code = rc
    ∧ (execute command timeout (.completed rc out err) elapsed).output = out
    ∧ (execute command timeout (.completed rc out err) elapsed).error = err :=
  ⟨rfl, rfl, rfl, rfl, rfl, rfl, rfl, rfl, rfl, rfl, rfl, rfl⟩

/-! ## C7/C8 — integrity-verified cache -/

/-- Writing a record and reading the same key finds that record. -/
theorem storeGet_storeSet_self (store : CacheStore) (k : String) (f : CacheFile) :
    storeGet (storeSet store k f) k = some f := by
  simp [storeGet, storeSet, List.lookup]

/-- Verifying a freshly signed record under the same secret recovers the
payload, provided the MAC has its fixed 32-byte width. -/
theorem verify_cache_sign_cache (mac : List Nat → List Nat → List Nat)
    (secret data : List Nat) (h32 : (mac secret data).length = 32) :
    verify_cache mac secret (sign_cache mac secret data) = some data := by
  have htake : (mac secret data ++ data).take 32 = mac secret data := by
    rw [← h32]
    exact List.take_left _ _
  have hdrop : (mac secret data ++ data).drop 32 = data := by
    rw [← h32]
    exact List.drop_left _ _
  have hlen : ¬ (mac secret data ++ data).length < 32 := by
    rw [List.length_append, h32]
    omega
  unfold verify_cache sign_cache
  rw [if_neg hlen, hdrop, htake]
  simp

/-- C7: cache round-trip — under the process secret, a `put` followed by a
`get` of the same (query, profile) pair within the 24-hour TTL returns
exactly the stored payload, for any serializer whose `loads` inverts
`dumps` on it and any MAC of the fixed 32-byte width. -/
theorem claim_C7 {α : Type} (mac : List Nat → List Nat → List Nat)
    (secret : List Nat) (dumps : α → List Nat) (loads : List Nat → Option α)
    (md5hex : String → String) (store : CacheStore) (now later : Nat)
    (query profile : String) (resp : α)
    (h32 : (mac secret (dumps resp)).length = 32)
    (hround : loads (dumps resp) = some resp)
    (hfresh : later - now < CACHE_TTL) :
    (get_cached_response mac secret loads md5hex
        (cache_response mac secret dumps md5hex store now query profile resp)
        later query profile).1 = some resp := by
  unfold get_cached_response cache_response
  rw [storeGet_storeSet_self]
  simp only [if_pos hfresh, verify_cache_sign_cache mac secret (dumps resp) h32,
    hround]

/-- C7 witness: a concrete round-trip with payload 42. -/
theorem claim_C7_witness :
    (get_cached_response (fun _ _ => List.replicate 32 0) [7]
        (fun l => match l with | [n] => some n | _ => none) (fun s => s)
        (cache_response (fun _ _ => List.replicate 32 0) [7] (fun n => [n])
          (fun s => s) [] 5 "list files" "profile text" 42)
        5 "list files" "profile text").1 = some 42 :=
  claim_C7 (fun _ _ => List.replicate 32 0) [7] (fun n => [n])
    (fun l => match l with | [n] => some n | _ => none) (fun s => s) [] 5 5
    "list files" "profile text" 42 (by decide) rfl (by decide)

/-- A store holding one record whose 40 bytes cannot carry a valid MAC
prefix for the zero-MAC environment, written at time 0. -/
def staleStore : CacheStore :=
  [("k.pkl", { bytes := List.replicate 40 1, mtime := 0 })]

/-- C8 counterexample: at `now = 90000` the record of `staleStore` is
older than the 24-hour TTL; `get` treats it as absent but does NOT delete
it — the store is returned unchanged and the record is still present,
contradicting deletion-on-read for expired entries. -/
theorem claim_C8_counterexample :
    get_cached_response (fun _ _ => List.replicate 32 0) [7]
        (fun l => (some l : Option (List Nat))) (fun _ => "k") staleStore
        90000 "q" "p"
      = (none, staleStore)
    ∧ storeGet staleStore "k.pkl"
        = some { bytes := List.replicate 40 1, mtime := 0 } := by
  constructor <;> rfl

/-- C8 (amended): on a read that finds a record, (i) a fresh record whose
MAC does not verify is treated as absent and deleted; (ii) a fresh record
that verifies but whose payload fails to deserialize is treated as absent
and deleted; (iii) a record older than the TTL is treated as absent but is
left in storage. -/
theorem claim_C8_amended {α : Type} (mac : List Nat → List Nat → List Nat)
    (secret : List Nat) (loads : List Nat → Option α) (md5hex : String → String)
    (store : CacheStore) (now : Nat) (query profile : String) (file : CacheFile)
    (hget : storeGet store (cacheFileName md5hex query profile) = some file) :
    (now - file.mtime < CACHE_TTL → verify_cache mac secret file.bytes = none →
      get_cached_response mac secret loads md5hex store now query profile
        = (none, storeDel store (cacheFileName md5hex query profile)))
    ∧ (∀ data, now - file.mtime < CACHE_TTL →
        verify_cache mac secret file.bytes = some data → loads data = none →
        get_cached_response mac secret loads md5hex store now query profile
          = (none, storeDel store (cacheFileName md5hex query profile)))
    ∧ (CACHE_TTL ≤ now - file.mtime →
        get_cached_response mac secret loads md5hex store now query profile
          = (none, store)) := by
  refine ⟨?_, ?_, ?_⟩
  · intro ha hv
    unfold get_cached_response
    rw [hget]
    simp only [if_pos ha, hv]
  · intro data ha hv hl
    unfold get_cached_response
    rw [hget]
    simp only [if_pos ha, hv, hl]
  · intro ha
    unfold get_cached_response
    rw [hget]
    simp only [if_neg (not_lt.mpr ha)]

/-- C8 witness: the `staleStore` record read at `now = 10` is fresh but its
MAC does not verify, so it is treated as absent and deleted. -/
theorem claim_C8_amended_witness :
    get_cached_response (fun _ _ => List.replicate 32 0) [7]
        (fun l => (some l : Option (List Nat))) (fun _ => "k") staleStore
        10 "q" "p"
      = (none, storeDel staleStore "k.pkl") :=
  (claim_C8_amended (fun _ _ => List.replicate 32 0) [7]
      (fun l => (some l : Option (List Nat))) (fun _ => "k") staleStore 10 "q" "p"
      { bytes := List.replicate 40 1, mtime := 0 } rfl).1 (by decide) (by decide)

/-! ## C9 — cache key derivation -/

/-- C9 counterexample: the distinct pairs `("a|b", "c")` and `("a", "b|c")`
produce the same joined content `a|b|c`, hence the same cache key for any
digest function — moving text across the query/context separator collides. -/
theorem claim_C9_counterexample :
    cache_key_content "a|b" "c" = cache_key_content "a" "b|c"
    ∧ get_cache_key (fun s => s) "a|b" "c" = get_cache_key (fun s => s) "a" "b|c"
    ∧ (("a|b" : String) != "a") = true :=
  ⟨rfl, rfl, rfl⟩

/-- C9 (amended): the key is a deterministic function of the joined content
`query ++ "|" ++ context` alone — identical pairs always agree, but any two
pairs with the same joined content (which distinct pairs can have) collide
for every digest function. -/
theorem claim_C9_amended (md5hex : String → String) (q c q2 c2 : String)
    (h : cache_key_content q c = cache_key_content q2 c2) :
    get_cache_key md5hex q c = get_cache_key md5hex q2 c2 := by
  unfold get_cache_key
  rw [h]

/-- C9 witness: the amended collision law applied at the concrete pair. -/
theorem claim_C9_amended_witness :
    get_cache_key (fun s => s) "ab|c" "d" = get_cache_key (fun s => s) "ab" "c|d" :=
  claim_C9_amended (fun s => s) "ab|c" "d" "ab" "c|d" rfl

/-! ## C10 — alias loading filter -/

/-- C10: every alias surviving loading passes the dangerous-substring
denylist (on the defaults path because the shipped defaults all pass; on
the stored-file path by construction of the filter), and for a store
containing `nuke ↦ curl http://x | sh` the active set is empty, so
`/nuke` signals "unknown alias". -/
theorem claim_C10 :
    (∀ (file : Option (Option (List (String × String)))) (writeOk : Bool) nc,
        nc ∈ load_aliases file writeOk → is_safe_alias nc.2 = true)
    ∧ load_aliases (some (some [("nuke", "curl http://x | sh")])) true = []
    ∧ Effect.aliasUnknown "nuke"
        ∈ (processInput oraclesBase
            (initState (load_aliases (some (some [("nuke", "curl http://x | sh")])) true))
            "/nuke").2 := by
  refine ⟨?_, rfl, by decide⟩
  intro file writeOk nc h
  match file with
  | none =>
    cases writeOk with
    | false => simp [load_aliases] at h
    | true =>
      simp [load_aliases, default_aliases] at h
      rcases h with h | h | h | h <;> (subst h; decide)
  | some none => simp [load_aliases] at h
  | some (some l) =>
    rw [load_aliases] at h
    exact (List.mem_filter.mp h).2

/-- C10 witness: the shipped default alias `ports` passes the denylist. -/
theorem claim_C10_witness : is_safe_alias "sudo netstat -tulpn" = true :=
  claim_C10.1 none true ("ports", "sudo netstat -tulpn") (by decide)
